import Mathlib

/-!
Verification of the expense-tracker application (Express backend `server/index.js`
and React client `src/App.tsx`) against its natural-language specification.

The backend state is one collection of expense records; each endpoint handler is
embedded as a pure function of the request data and the store.  JavaScript
numbers are modelled as rationals; JavaScript falsiness of a request field
(`!amount`, `!category`, ...) is modelled explicitly: a number is falsy exactly
when it is `0`, a string exactly when it is `""`, and an absent field is falsy.
The document store's string comparison (used by `$gte`/`$lte` and
`sort({date: -1})`) is embedded as lexicographic comparison of the character
sequences, which agrees with Lean's linear order on `String`.
-/

namespace ExpenseTracker

/-- A persisted expense record (the `expenseSchema` of `server/index.js`):
`amount : Number`, `category : String`, `date : String`,
`description : String` (default `''`), plus the store-assigned identifier. -/
structure Expense where
  id : Nat
  amount : ℚ
  category : String
  date : String
  description : String
  deriving Repr, DecidableEq

/-- The backend store: the collection of saved records together with the next
identifier the store will assign. -/
structure Store where
  expenses : List Expense
  nextId : Nat
  deriving Repr, DecidableEq

/-- Body of a `POST /api/expenses` request; each field may be absent. -/
structure CreateBody where
  amount : Option ℚ
  category : Option String
  date : Option String
  description : Option String
  deriving Repr, DecidableEq

/-- JavaScript truthiness of an optional number: `undefined` and `0` are falsy. -/
def numTruthy : Option ℚ → Bool
  | some a => a != 0
  | none => false

/-- JavaScript truthiness of an optional string: `undefined` and `""` are falsy. -/
def strTruthy : Option String → Bool
  | some s => s != ""
  | none => false

/-- Lexicographic comparison of character sequences: the string order the
document store applies to the `date` field in `$gte`/`$lte` and in
`sort({date: -1})`. -/
def charListLe : List Char → List Char → Bool
  | [], _ => true
  | _ :: _, [] => false
  | a :: as, b :: bs => if a < b then true else if b < a then false else charListLe as bs

/-- String comparison as performed by the store. -/
def strLe (a b : String) : Bool := charListLe a.toList b.toList

theorem charListLe_iff : ∀ as bs : List Char, charListLe as bs = true ↔ as ≤ bs := by
  intro as
  induction as with
  | nil =>
    intro bs
    simp [charListLe]
  | cons a as ih =>
    intro bs
    cases bs with
    | nil =>
      simp only [charListLe, Bool.false_eq_true, false_iff, not_le]
      exact List.nil_lt_cons a as
    | cons b bs =>
      rcases lt_trichotomy a b with h1 | h1 | h1
      · simp only [charListLe, if_pos h1, true_iff]
        exact le_of_lt (List.Lex.rel h1)
      · subst h1
        simp only [charListLe, if_neg (lt_irrefl a), ih bs]
        constructor
        · intro h
          by_contra hcon
          rw [not_le] at hcon
          exact absurd (List.Lex.cons_iff.mp hcon) (not_lt.mpr h)
        · intro h
          by_contra hcon
          rw [not_le] at hcon
          exact absurd (List.Lex.cons hcon) (not_lt.mpr h)
      · simp only [charListLe, if_neg (lt_asymm h1), if_pos h1, Bool.false_eq_true, false_iff,
          not_le]
        exact List.Lex.rel h1

theorem strLe_iff (a b : String) : strLe a b = true ↔ a ≤ b := by
  rw [strLe, charListLe_iff, String.le_iff_toList_le]

theorem strLe_eq_decide (a b : String) : strLe a b = decide (a ≤ b) := by
  by_cases h : a ≤ b
  · rw [(strLe_iff a b).mpr h, decide_eq_true h]
  · rw [decide_eq_false h]
    cases hb : strLe a b with
    | false => rfl
    | true => exact absurd ((strLe_iff a b).mp hb) h

/-- Result of the create endpoint: `400` with a message, or `201` with the
saved record. -/
inductive PostResult where
  | badRequest (message : String)
  | created (e : Expense)
  deriving Repr, DecidableEq

/-- Handler `app.post('/api/expenses')`: destructures `amount`, `category`, `date`,
`description` from the body; if `!amount || !category || !date` it answers 400
and stores nothing; otherwise it saves a new record (the schema defaults a
missing description to `""`) and answers 201 with the saved record. -/
def postExpense (b : CreateBody) (st : Store) : PostResult × Store :=
  if numTruthy b.amount && strTruthy b.category && strTruthy b.date then
    let e : Expense :=
      { id := st.nextId
        amount := b.amount.getD 0
        category := b.category.getD ""
        date := b.date.getD ""
        description := b.description.getD "" }
    (.created e, { expenses := st.expenses ++ [e], nextId := st.nextId + 1 })
  else
    (.badRequest "Please provide amount, category, and date", st)

/-- Result of the range-total endpoint: `400` with a message, or `200` with
`{total}`. -/
inductive TotalResult where
  | badRequest (message : String)
  | ok (total : ℚ)
  deriving Repr, DecidableEq

/-- Handler `app.get('/api/expenses/total')`: if `!start || !end` it answers 400;
otherwise it finds all records with `date: {$gte: start, $lte: end}` (string
comparison) and answers with the sum of their amounts. -/
def getTotal (start end_ : Option String) (st : Store) : TotalResult :=
  if strTruthy start && strTruthy end_ then
    let s := start.getD ""
    let e := end_.getD ""
    .ok (((st.expenses.filter fun x => strLe s x.date && strLe x.date e).map
      Expense.amount).sum)
  else
    .badRequest "Please provide start and end dates"

/-- The query object built by `app.get('/api/expenses')`: a `category` clause is
added only when the parameter is truthy, likewise for `date`; a record matches
when it satisfies every added clause. -/
def matchesQuery (cat date : Option String) (e : Expense) : Bool :=
  (!strTruthy cat || e.category == cat.getD "") &&
    (!strTruthy date || e.date == date.getD "")

/-- The descending-date order of `sort({date: -1})`: `a` may precede `b` when
`b`'s date is at most `a`'s. -/
def dateDesc (a b : Expense) : Prop := strLe b.date a.date = true

instance : DecidableRel dateDesc :=
  fun a b => inferInstanceAs (Decidable (strLe b.date a.date = true))

instance : IsTotal Expense dateDesc :=
  ⟨fun a b => by
    simp only [dateDesc, strLe_iff]
    exact le_total b.date a.date⟩

instance : IsTrans Expense dateDesc :=
  ⟨fun _ _ _ h1 h2 => by
    simp only [dateDesc, strLe_iff] at h1 h2 ⊢
    exact le_trans h2 h1⟩

/-- Handler `app.get('/api/expenses')`: `Expense.find(query).sort({date: -1})` — the
records matching the query, sorted by date descending (string order). -/
def listExpenses (cat date : Option String) (st : Store) : List Expense :=
  List.insertionSort dateDesc (st.expenses.filter (matchesQuery cat date))

/-- One row of the by-category aggregation: `{_id: category, total, count}`. -/
structure CatAgg where
  category : String
  total : ℚ
  count : Nat
  deriving Repr, DecidableEq

/-- Sum of the amounts of the records in category `c` (the `$sum: '$amount'`
accumulator of the `$group` stage). -/
def catTotal (st : Store) (c : String) : ℚ :=
  ((st.expenses.filter fun e => e.category == c).map Expense.amount).sum

/-- Number of records in category `c` (the `$sum: 1` accumulator). -/
def catCount (st : Store) (c : String) : Nat :=
  (st.expenses.filter fun e => e.category == c).length

/-- The `$group` stage of `app.get('/api/expenses/by-category')`: one row per
distinct category with its total and count. -/
def groupByCategory (st : Store) : List CatAgg :=
  (st.expenses.map Expense.category).dedup.map fun c => ⟨c, catTotal st c, catCount st c⟩

/-- The descending-total order of the `$sort: {total: -1}` stage. -/
def totalDesc (a b : CatAgg) : Prop := b.total ≤ a.total

instance : DecidableRel totalDesc :=
  fun a b => inferInstanceAs (Decidable (b.total ≤ a.total))

instance : IsTotal CatAgg totalDesc :=
  ⟨fun a b => le_total b.total a.total⟩

instance : IsTrans CatAgg totalDesc :=
  ⟨fun _ _ _ h1 h2 => le_trans h2 h1⟩

/-- Handler `app.get('/api/expenses/by-category')`: the `$group` stage followed by
`$sort: {total: -1}`. -/
def byCategory (st : Store) : List CatAgg :=
  List.insertionSort totalDesc (groupByCategory st)

/-- A JavaScript value as seen by the client's `isValidExpense` shape check:
a (non-NaN) number, `NaN`, a string, or any other value. -/
inductive JSVal where
  | num (q : ℚ)
  | nan
  | str (s : String)
  | other
  deriving Repr, DecidableEq

/-- The fields of a fetched array element when it is an object; accessing an
absent property yields `undefined`, modelled as `none`. -/
structure RawItem where
  amount : Option JSVal
  category : Option JSVal
  date : Option JSVal
  description : Option JSVal
  deriving Repr, DecidableEq

/-- One element of a fetched array: a non-object value (including `null`) or an
object with its four relevant properties. -/
inductive Fetched where
  | notObj
  | obj (r : RawItem)
  deriving Repr, DecidableEq

/-- JavaScript's `String.prototype.trim()`: the string with leading and
trailing whitespace removed. -/
def jsTrim (s : String) : String :=
  ⟨((s.toList.dropWhile Char.isWhitespace).reverse.dropWhile Char.isWhitespace).reverse⟩

/-- Check `typeof e.amount === 'number' && !isNaN(e.amount) && e.amount > 0`. -/
def amountCheck : Option JSVal → Bool
  | some (.num q) => decide (0 < q)
  | _ => false

/-- Check `typeof e.x === 'string' && e.x.trim() !== ''`. -/
def strFieldCheck : Option JSVal → Bool
  | some (.str s) => jsTrim s != ""
  | _ => false

/-- Check `e.description === undefined || typeof e.description === 'string'`. -/
def descCheck : Option JSVal → Bool
  | none => true
  | some (.str _) => true
  | _ => false

/-- Predicate `isValidExpense` of `src/App.tsx`: the element is an object, its `amount` is
a number that is not `NaN` and is `> 0`, its `category` and `date` are strings
whose `trim()` is not `''`, and its `description` is `undefined` or a string. -/
def isValidExpense : Fetched → Bool
  | .notObj => false
  | .obj r =>
    amountCheck r.amount && strFieldCheck r.category && strFieldCheck r.date &&
      descCheck r.description

/-- Check `typeof e.x === 'string' && e.x !== ''` — the claim's version of the
string-field check, without whitespace trimming. -/
def strNonEmptyCheck : Option JSVal → Bool
  | some (.str s) => s != ""
  | _ => false

/-- The shape check as the claim words it (second definition, following the
claim's text rather than the source, for comparison with `isValidExpense`):
amount a number, not NaN and `> 0`; category a non-empty string; date a
non-empty string; description absent or a string — with no whitespace
trimming. -/
def claimShapeCheck : Fetched → Bool
  | .notObj => false
  | .obj r =>
    amountCheck r.amount && strNonEmptyCheck r.category && strNonEmptyCheck r.date &&
      descCheck r.description

/-- The source's shape check, spelled as a proposition: the element is an
object whose amount is a positive number, whose category and date are strings
that are non-empty after trimming whitespace, and whose description is absent
or a string. -/
def shapeProp (f : Fetched) : Prop :=
  ∃ r, f = .obj r ∧
    (∃ q : ℚ, r.amount = some (.num q) ∧ 0 < q) ∧
    (∃ c, r.category = some (.str c) ∧ jsTrim c ≠ "") ∧
    (∃ d, r.date = some (.str d) ∧ jsTrim d ≠ "") ∧
    (r.description = none ∨ ∃ s, r.description = some (.str s))

/-- The numeric amount of a fetched element (`expense.amount` in JavaScript);
elements kept by `isValidExpense` always hit the first branch. -/
def amountOf : Fetched → ℚ
  | .obj r =>
    match r.amount with
    | some (.num q) => q
    | _ => 0
  | .notObj => 0

/-- The component state of `App` that the verified operations touch: the full
and filtered lists, the loading flag, the error message, the displayed total,
the four filter fields and the filter-modal flag. -/
structure ClientState where
  expenses : List Fetched
  filteredExpenses : List Fetched
  loading : Bool
  error : Option String
  totalAmount : ℚ
  filterCategory : String
  filterDate : String
  filterStartDate : String
  filterEndDate : String
  showFilterModal : Bool
  deriving Repr, DecidableEq

/-- The initial state of the `useState` hooks of `App`. -/
def initialState : ClientState :=
  { expenses := []
    filteredExpenses := []
    loading := true
    error := none
    totalAmount := 0
    filterCategory := ""
    filterDate := ""
    filterStartDate := ""
    filterEndDate := ""
    showFilterModal := false }

/-- Function `calculateTotal` of `src/App.tsx`: `reduce((sum, e) => sum + e.amount, 0)`. -/
def calculateTotal (l : List Fetched) : ℚ := (l.map amountOf).sum

/-- Operation `fetchExpenses` of `src/App.tsx`.  Argument `resp` is the outcome of the request:
`some data` when the fetch succeeded with an array body, `none` for a network
error, a non-2xx status or a non-array body.  On success the fetched elements
are filtered through `isValidExpense` and both lists and the total are set from
the kept elements; on failure the error message is set and the lists and total
are cleared. -/
def fetchExpenses (resp : Option (List Fetched)) (st : ClientState) : ClientState :=
  match resp with
  | some data =>
    let valid := data.filter isValidExpense
    { st with
      loading := false
      error := none
      expenses := valid
      filteredExpenses := valid
      totalAmount := calculateTotal valid }
  | none =>
    { st with
      loading := false
      error := some "Error fetching expenses. Please try again later."
      expenses := []
      filteredExpenses := []
      totalAmount := 0 }

/-- Operation `applyFilters` of `src/App.tsx`.  Argument `resp` is the request outcome as in
`fetchExpenses`.  On success the filtered list and total are replaced from the
kept elements and the modal closes; on failure the error message is set and the
filtered list and total are cleared; the full list is never written. -/
def applyFilters (resp : Option (List Fetched)) (st : ClientState) : ClientState :=
  match resp with
  | some data =>
    let valid := data.filter isValidExpense
    { st with
      loading := false
      error := none
      filteredExpenses := valid
      totalAmount := calculateTotal valid
      showFilterModal := false }
  | none =>
    { st with
      loading := false
      error := some "Error applying filters. Please try again."
      filteredExpenses := []
      totalAmount := 0 }

/-- Operation `getTotalForDateRange` of `src/App.tsx`.  If either local date field is the
empty string the function only sets the error message and returns.  Otherwise
`resp` is the request outcome: `some t` when the endpoint answered and
`data.total` was a non-NaN number, `none` for any failure.  On success only the
displayed total is replaced (and the modal closes); on failure the error
message is set and the total cleared. -/
def getTotalForDateRange (resp : Option ℚ) (st : ClientState) : ClientState :=
  if st.filterStartDate == "" || st.filterEndDate == "" then
    { st with error := some "Please select both start and end dates" }
  else
    match resp with
    | some t =>
      { st with
        loading := false
        error := none
        totalAmount := t
        showFilterModal := false }
    | none =>
      { st with
        loading := false
        error := some "Error fetching total. Please try again."
        totalAmount := 0 }

/-- Operation `resetFilters` of `src/App.tsx`: clears the four filter fields, restores the
filtered list from the retained full list, recomputes the total from the full
list, closes the modal and clears the error. -/
def resetFilters (st : ClientState) : ClientState :=
  { st with
    filterCategory := ""
    filterDate := ""
    filterStartDate := ""
    filterEndDate := ""
    filteredExpenses := st.expenses
    totalAmount := calculateTotal st.expenses
    showFilterModal := false
    error := none }

/-- C1 counterexample: a `POST /api/expenses` body carrying `amount: 0` with
category and date present and non-empty is rejected with 400 and stores
nothing, because `!amount` is true for the number `0`; the claim states that a
zero amount is accepted (not rejected with 400). -/
theorem c1_zero_amount_rejected_counterexample :
    postExpense ⟨some 0, some "Food", some "2025-01-15", none⟩ ⟨[], 0⟩ =
      (.badRequest "Please provide amount, category, and date", ⟨[], 0⟩) := by
  decide

/-- C1 (amended): if any of amount, category, date is absent the create
endpoint returns 400 and stores nothing; likewise when the amount is `0`
(falsy).  If all three are present with amount nonzero and category and date
non-empty — in particular for every positive and every negative amount — it
returns 201 with the stored record carrying the assigned identifier. -/
theorem c1_create_validation (b : CreateBody) (st : Store) :
    ((b.amount = none ∨ b.category = none ∨ b.date = none) →
      postExpense b st = (.badRequest "Please provide amount, category, and date", st)) ∧
    (b.amount = some 0 →
      postExpense b st = (.badRequest "Please provide amount, category, and date", st)) ∧
    (∀ a c d, b.amount = some a → a ≠ 0 → b.category = some c → c ≠ "" →
      b.date = some d → d ≠ "" →
      postExpense b st =
        (.created ⟨st.nextId, a, c, d, b.description.getD ""⟩,
          ⟨st.expenses ++ [⟨st.nextId, a, c, d, b.description.getD ""⟩], st.nextId + 1⟩)) := by
  refine ⟨?_, ?_, ?_⟩
  · rintro (h | h | h) <;> simp [postExpense, numTruthy, strTruthy, h]
  · intro h
    simp [postExpense, numTruthy, h]
  · intro a c d ha ha0 hc hc0 hd hd0
    simp [postExpense, numTruthy, strTruthy, ha, ha0, hc, hc0, hd, hd0]

/-- C1 witness: the amended theorem applied to a concrete body with the
negative amount `-5`: the record is accepted and stored. -/
theorem c1_create_validation_witness :
    postExpense ⟨some (-5), some "Food", some "2025-01-15", none⟩ ⟨[], 0⟩ =
      (.created ⟨0, -5, "Food", "2025-01-15", ""⟩,
        ⟨[⟨0, -5, "Food", "2025-01-15", ""⟩], 1⟩) := by
  have h := (c1_create_validation ⟨some (-5), some "Food", some "2025-01-15", none⟩ ⟨[], 0⟩).2.2
    (-5) "Food" "2025-01-15" rfl (by decide) rfl (by decide) rfl (by decide)
  simpa using h

/-- C9: a create request whose category or date is present but equal to `""` is
rejected with 400 and inserts nothing, and consequently every record the
endpoint creates has a non-empty category and a non-empty date. -/
theorem c9_created_fields_nonempty (b : CreateBody) (st : Store) :
    ((b.category = some "" ∨ b.date = some "") →
      postExpense b st = (.badRequest "Please provide amount, category, and date", st)) ∧
    (∀ e st2, postExpense b st = (.created e, st2) → e.category ≠ "" ∧ e.date ≠ "") := by
  constructor
  · rintro (h | h) <;> simp [postExpense, strTruthy, h]
  · intro e st2 h
    by_cases hcond : (numTruthy b.amount && strTruthy b.category && strTruthy b.date) = true
    · rw [postExpense, if_pos hcond] at h
      simp only [Bool.and_eq_true] at hcond
      obtain ⟨⟨-, hcat⟩, hdate⟩ := hcond
      injection h with h1 h2
      injection h1 with h1
      subst h1
      cases h1 : b.category with
      | none => rw [h1] at hcat; simp [strTruthy] at hcat
      | some c =>
        cases h2 : b.date with
        | none => rw [h2] at hdate; simp [strTruthy] at hdate
        | some d =>
          rw [h1] at hcat
          rw [h2] at hdate
          simp only [strTruthy, bne_iff_ne, ne_eq] at hcat hdate
          simp [h1, h2, hcat, hdate]
    · rw [postExpense, if_neg hcond] at h
      exact absurd h (by simp)

/-- C9 witness: the theorem applied to a concrete body with `category: ""`:
the request is rejected and the store unchanged. -/
theorem c9_created_fields_nonempty_witness :
    postExpense ⟨some 5, some "", some "2025-01-15", none⟩ ⟨[], 0⟩ =
      (.badRequest "Please provide amount, category, and date", ⟨[], 0⟩) :=
  (c9_created_fields_nonempty ⟨some 5, some "", some "2025-01-15", none⟩ ⟨[], 0⟩).1
    (Or.inl rfl)

/-- C8: on the store holding exactly the records (45.99, Food, 2025-01-15) and
(12.50, Transportation, 2025-01-14), `GET /api/expenses/total` with
`start=2025-01-14` and `end=2025-01-15` answers `{total: 58.49}`. -/
theorem c8_range_total_concrete :
    getTotal (some "2025-01-14") (some "2025-01-15")
      ⟨[⟨0, 45.99, "Food", "2025-01-15", ""⟩,
        ⟨1, 12.50, "Transportation", "2025-01-14", ""⟩], 2⟩ =
      .ok 58.49 := by
  norm_num [getTotal, strTruthy, List.filter,
    show ("2025-01-14" : String) ≠ "" from by decide,
    show ("2025-01-15" : String) ≠ "" from by decide,
    show strLe "2025-01-14" "2025-01-15" = true from by decide,
    show strLe "2025-01-15" "2025-01-15" = true from by decide,
    show strLe "2025-01-14" "2025-01-14" = true from by decide]

/-- C7: `resetFilters` sets the filtered list to the retained full list, the
displayed total to the sum of the full list's amounts, clears the four filter
fields, and leaves the full list unchanged. -/
theorem c7_reset_filters (st : ClientState) :
    (resetFilters st).filteredExpenses = st.expenses ∧
    (resetFilters st).totalAmount = (st.expenses.map amountOf).sum ∧
    (resetFilters st).filterCategory = "" ∧
    (resetFilters st).filterDate = "" ∧
    (resetFilters st).filterStartDate = "" ∧
    (resetFilters st).filterEndDate = "" ∧
    (resetFilters st).expenses = st.expenses :=
  ⟨rfl, rfl, rfl, rfl, rfl, rfl, rfl⟩

/-- C10: when `applyFilters` fails (network error, non-2xx, or a non-array
body), the filtered list becomes empty, the displayed total becomes 0 and the
error message is set, while the retained full list is unchanged. -/
theorem c10_apply_filters_failure (st : ClientState) :
    (applyFilters none st).filteredExpenses = [] ∧
    (applyFilters none st).totalAmount = 0 ∧
    (applyFilters none st).error = some "Error applying filters. Please try again." ∧
    (applyFilters none st).expenses = st.expenses :=
  ⟨rfl, rfl, rfl, rfl⟩

/-- C6: with either date field empty, `getTotalForDateRange` only sets the
error message (every other state component is untouched); with both fields
set, a successful request replaces the displayed total with the returned value
and leaves both the filtered list and the full list unchanged. -/
theorem c6_range_total_frame (st : ClientState) (resp : Option ℚ) :
    ((st.filterStartDate = "" ∨ st.filterEndDate = "") →
      getTotalForDateRange resp st =
        { st with error := some "Please select both start and end dates" }) ∧
    (∀ t, resp = some t → st.filterStartDate ≠ "" → st.filterEndDate ≠ "" →
      (getTotalForDateRange resp st).totalAmount = t ∧
      (getTotalForDateRange resp st).filteredExpenses = st.filteredExpenses ∧
      (getTotalForDateRange resp st).expenses = st.expenses) := by
  constructor
  · rintro (h | h) <;> simp [getTotalForDateRange, h]
  · intro t ht h1 h2
    subst ht
    simp [getTotalForDateRange, h1, h2]

/-- C6 witness: the theorem applied to a concrete state with both date fields
set and a response of 7: only the total changes, the lists are kept. -/
theorem c6_range_total_frame_witness :
    (getTotalForDateRange (some 7)
      { initialState with filterStartDate := "2025-01-01", filterEndDate := "2025-01-31" }).totalAmount = 7 ∧
    (getTotalForDateRange (some 7)
      { initialState with filterStartDate := "2025-01-01", filterEndDate := "2025-01-31" }).filteredExpenses =
      ({ initialState with filterStartDate := "2025-01-01", filterEndDate := "2025-01-31" } : ClientState).filteredExpenses ∧
    (getTotalForDateRange (some 7)
      { initialState with filterStartDate := "2025-01-01", filterEndDate := "2025-01-31" }).expenses =
      ({ initialState with filterStartDate := "2025-01-01", filterEndDate := "2025-01-31" } : ClientState).expenses :=
  (c6_range_total_frame
    { initialState with filterStartDate := "2025-01-01", filterEndDate := "2025-01-31" }
    (some 7)).2 7 rfl (by decide) (by decide)

/-- C3 counterexample: with `start` present but equal to the empty string (a
representable query, `?start=&end=...`), the endpoint answers 400, while the
claim says that whenever both parameters are present it answers with the sum
(here `{total: 0}` on the empty store). -/
theorem c3_empty_bound_counterexample :
    getTotal (some "") (some "2025-01-15") ⟨[], 0⟩ =
      .badRequest "Please provide start and end dates" ∧
    getTotal (some "") (some "2025-01-15") ⟨[], 0⟩ ≠ .ok 0 := by
  decide

/-- C3 (amended): if either bound is missing or is the empty string the
endpoint answers 400; with both bounds present and non-empty it answers
`{total: s}`, `s` the sum of the amounts of exactly the records whose date
lies in `[start, end]` inclusive under string comparison. -/
theorem c3_range_total (start end_ : Option String) (st : Store) :
    ((start = none ∨ start = some "" ∨ end_ = none ∨ end_ = some "") →
      getTotal start end_ st = .badRequest "Please provide start and end dates") ∧
    (∀ s e, start = some s → s ≠ "" → end_ = some e → e ≠ "" →
      getTotal start end_ st =
        .ok (((st.expenses.filter fun x => decide (s ≤ x.date) && decide (x.date ≤ e)).map
          Expense.amount).sum)) := by
  constructor
  · rintro (h | h | h | h) <;> simp [getTotal, strTruthy, h]
  · intro s e hs hs0 he he0
    subst hs
    subst he
    rw [getTotal]
    have hc : (strTruthy (some s) && strTruthy (some e)) = true := by
      simp [strTruthy, hs0, he0]
    rw [if_pos hc]
    have hf : (st.expenses.filter fun x => strLe s x.date && strLe x.date e) =
        st.expenses.filter fun x => decide (s ≤ x.date) && decide (x.date ≤ e) := by
      apply List.filter_congr
      intro x _
      rw [strLe_eq_decide, strLe_eq_decide]
    simp only [Option.getD_some]
    rw [hf]

/-- C3 witness: the amended theorem applied to the two-record store of the
concrete scenario, with both bounds supplied. -/
theorem c3_range_total_witness :
    getTotal (some "2025-01-14") (some "2025-01-15")
      ⟨[⟨0, 45.99, "Food", "2025-01-15", ""⟩,
        ⟨1, 12.50, "Transportation", "2025-01-14", ""⟩], 2⟩ =
      .ok ((([⟨0, 45.99, "Food", "2025-01-15", ""⟩,
        ⟨1, 12.50, "Transportation", "2025-01-14", ""⟩].filter
          fun x : Expense =>
            decide ("2025-01-14" ≤ x.date) && decide (x.date ≤ "2025-01-15")).map
        Expense.amount).sum) :=
  (c3_range_total (some "2025-01-14") (some "2025-01-15")
    ⟨[⟨0, 45.99, "Food", "2025-01-15", ""⟩,
      ⟨1, 12.50, "Transportation", "2025-01-14", ""⟩], 2⟩).2
    "2025-01-14" "2025-01-15" rfl (by decide) rfl (by decide)

/-- C2: `GET /api/expenses/by-category` returns one entry per distinct
category of the store (no duplicates, and exactly the categories present),
each entry carrying the sum of that category's amounts and its record count,
and the entries are sorted in descending order of total. -/
theorem c2_by_category (st : Store) :
    ((byCategory st).map CatAgg.category).Nodup ∧
    (∀ c, c ∈ (byCategory st).map CatAgg.category ↔ c ∈ st.expenses.map Expense.category) ∧
    (∀ g ∈ byCategory st,
      g.total = ((st.expenses.filter fun e => e.category == g.category).map Expense.amount).sum ∧
      g.count = (st.expenses.filter fun e => e.category == g.category).length) ∧
    (byCategory st).Sorted totalDesc := by
  have hperm : List.Perm (byCategory st) (groupByCategory st) := List.perm_insertionSort _ _
  have hmap : (groupByCategory st).map CatAgg.category =
      (st.expenses.map Expense.category).dedup := by
    rw [groupByCategory, List.map_map]
    exact List.map_id _
  refine ⟨?_, ?_, ?_, ?_⟩
  · rw [(hperm.map CatAgg.category).nodup_iff, hmap]
    exact (st.expenses.map Expense.category).nodup_dedup
  · intro c
    rw [(hperm.map CatAgg.category).mem_iff, hmap, List.mem_dedup]
  · intro g hg
    rw [hperm.mem_iff] at hg
    simp only [groupByCategory, List.mem_map] at hg
    obtain ⟨c, -, rfl⟩ := hg
    exact ⟨rfl, rfl⟩
  · exact List.sorted_insertionSort totalDesc _

/-- C2 witness: the theorem applied to a one-record store; the single row
carries the record's amount as total and count 1. -/
theorem c2_by_category_witness :
    (⟨"Food", 5, 1⟩ : CatAgg).total =
      (((⟨[⟨0, 5, "Food", "2025-01-15", ""⟩], 1⟩ : Store).expenses.filter
        fun e => e.category == (⟨"Food", 5, 1⟩ : CatAgg).category).map Expense.amount).sum ∧
    (⟨"Food", 5, 1⟩ : CatAgg).count =
      ((⟨[⟨0, 5, "Food", "2025-01-15", ""⟩], 1⟩ : Store).expenses.filter
        fun e => e.category == (⟨"Food", 5, 1⟩ : CatAgg).category).length :=
  (c2_by_category ⟨[⟨0, 5, "Food", "2025-01-15", ""⟩], 1⟩).2.2.1 ⟨"Food", 5, 1⟩
    (by simp [byCategory, groupByCategory, catTotal, catCount, List.insertionSort,
      List.orderedInsert, List.filter])

theorem matchesQuery_iff (cat date : Option String) (e : Expense) :
    matchesQuery cat date e = true ↔
      ((∀ c, cat = some c → c ≠ "" → e.category = c) ∧
       (∀ d, date = some d → d ≠ "" → e.date = d)) := by
  cases cat with
  | none =>
    cases date with
    | none => simp [matchesQuery, strTruthy]
    | some d => by_cases hd : d = "" <;> simp [matchesQuery, strTruthy, hd]
  | some c =>
    cases date with
    | none => by_cases hc : c = "" <;> simp [matchesQuery, strTruthy, hc]
    | some d =>
      by_cases hc : c = "" <;> by_cases hd : d = "" <;>
        simp [matchesQuery, strTruthy, hc, hd]

/-- C4 counterexample: with the `category` parameter supplied as the empty
string, the code ignores the filter and returns the whole store — here a
record whose category is "Food", not "" — while the claim says the result is
exactly the records whose category equals the supplied parameter (none). -/
theorem c4_empty_category_counterexample :
    listExpenses (some "") none ⟨[⟨0, 5, "Food", "2025-01-15", ""⟩], 1⟩ =
      [⟨0, 5, "Food", "2025-01-15", ""⟩] ∧
    (⟨0, 5, "Food", "2025-01-15", ""⟩ : Expense).category ≠ "" ∧
    listExpenses (some "") none ⟨[⟨0, 5, "Food", "2025-01-15", ""⟩], 1⟩ ≠ [] := by
  decide

/-- C4 (amended): the listing is sorted by date descending (string order) and
is, up to that reordering, exactly the stored records matching each supplied
NON-EMPTY parameter by exact string equality; parameters that are absent or
supplied as the empty string impose no constraint, so with no (or only empty)
parameters every stored record is returned. -/
theorem c4_list_expenses (cat date : Option String) (st : Store) :
    (listExpenses cat date st).Sorted dateDesc ∧
    List.Perm (listExpenses cat date st) (st.expenses.filter (matchesQuery cat date)) ∧
    (∀ e, e ∈ listExpenses cat date st ↔
      (e ∈ st.expenses ∧
        (∀ c, cat = some c → c ≠ "" → e.category = c) ∧
        (∀ d, date = some d → d ≠ "" → e.date = d))) ∧
    ((cat = none ∨ cat = some "") → (date = none ∨ date = some "") →
      List.Perm (listExpenses cat date st) st.expenses) := by
  refine ⟨List.sorted_insertionSort _ _, List.perm_insertionSort _ _, ?_, ?_⟩
  · intro e
    rw [listExpenses, List.mem_insertionSort, List.mem_filter, matchesQuery_iff]
  · intro hcat hdate
    have hq : ∀ e ∈ st.expenses, matchesQuery cat date e = true := by
      intro e _
      rw [matchesQuery_iff]
      constructor
      · intro c hc hc0
        rcases hcat with h | h <;> rw [h] at hc
        · cases hc
        · injection hc with hc
          exact absurd hc.symm hc0
      · intro d hd hd0
        rcases hdate with h | h <;> rw [h] at hd
        · cases hd
        · injection hd with hd
          exact absurd hd.symm hd0
    have hfilter : st.expenses.filter (matchesQuery cat date) = st.expenses :=
      List.filter_eq_self.mpr hq
    rw [listExpenses, hfilter]
    exact List.perm_insertionSort _ _

/-- C4 witness: the amended theorem applied with no parameters to a one-record
store: the record comes back. -/
theorem c4_list_expenses_witness :
    List.Perm (listExpenses none none ⟨[⟨0, 5, "Food", "2025-01-15", ""⟩], 1⟩)
      [⟨0, 5, "Food", "2025-01-15", ""⟩] :=
  (c4_list_expenses none none ⟨[⟨0, 5, "Food", "2025-01-15", ""⟩], 1⟩).2.2.2
    (Or.inl rfl) (Or.inl rfl)

theorem amountCheck_iff (v : Option JSVal) :
    amountCheck v = true ↔ ∃ q : ℚ, v = some (.num q) ∧ 0 < q := by
  cases v with
  | none => simp [amountCheck]
  | some w => cases w <;> simp [amountCheck]

theorem strFieldCheck_iff (v : Option JSVal) :
    strFieldCheck v = true ↔ ∃ s, v = some (.str s) ∧ jsTrim s ≠ "" := by
  cases v with
  | none => simp [strFieldCheck]
  | some w => cases w <;> simp [strFieldCheck]

theorem descCheck_iff (v : Option JSVal) :
    descCheck v = true ↔ (v = none ∨ ∃ s, v = some (.str s)) := by
  cases v with
  | none => simp [descCheck]
  | some w => cases w <;> simp [descCheck]

/-- C5 counterexample: an element whose category is the non-empty string `" "`
passes the claim's shape description but fails the source's check (which trims
whitespace), so it is kept by neither list and contributes nothing to the
total — the claim's characterisation of the kept elements is wrong on it. -/
theorem c5_whitespace_category_counterexample :
    claimShapeCheck (.obj ⟨some (.num 5), some (.str " "), some (.str "2025-01-01"), none⟩) =
      true ∧
    isValidExpense (.obj ⟨some (.num 5), some (.str " "), some (.str "2025-01-01"), none⟩) =
      false ∧
    (fetchExpenses (some [.obj ⟨some (.num 5), some (.str " "), some (.str "2025-01-01"), none⟩])
      initialState).expenses = [] ∧
    (fetchExpenses (some [.obj ⟨some (.num 5), some (.str " "), some (.str "2025-01-01"), none⟩])
      initialState).filteredExpenses = [] ∧
    (fetchExpenses (some [.obj ⟨some (.num 5), some (.str " "), some (.str "2025-01-01"), none⟩])
      initialState).totalAmount = 0 := by
  decide

/-- C5 (amended): on a successful load the client keeps exactly the fetched
elements passing the source's shape check (amount a positive non-NaN number;
category and date strings non-empty AFTER TRIMMING whitespace; description
absent or a string), sets both lists to the kept elements and the total to the
sum of their amounts; an element whose amount is the string "abc" appears in
neither list. -/
theorem c5_load_success (data : List Fetched) (st : ClientState) :
    (fetchExpenses (some data) st).expenses = data.filter isValidExpense ∧
    (fetchExpenses (some data) st).filteredExpenses = data.filter isValidExpense ∧
    (fetchExpenses (some data) st).totalAmount =
      ((data.filter isValidExpense).map amountOf).sum ∧
    (∀ f, isValidExpense f = true ↔ shapeProp f) ∧
    (∀ r : RawItem, r.amount = some (.str "abc") →
      Fetched.obj r ∉ (fetchExpenses (some data) st).expenses ∧
      Fetched.obj r ∉ (fetchExpenses (some data) st).filteredExpenses) := by
  refine ⟨rfl, rfl, rfl, ?_, ?_⟩
  · intro f
    cases f with
    | notObj =>
      simp only [isValidExpense, Bool.false_eq_true, false_iff, shapeProp]
      rintro ⟨r, hr, -⟩
      cases hr
    | obj r =>
      simp only [isValidExpense, Bool.and_eq_true, amountCheck_iff, strFieldCheck_iff,
        descCheck_iff, shapeProp]
      constructor
      · rintro ⟨⟨⟨h1, h2⟩, h3⟩, h4⟩
        exact ⟨r, rfl, h1, h2, h3, h4⟩
      · rintro ⟨r', hr, h1, h2, h3, h4⟩
        injection hr with hr
        subst hr
        exact ⟨⟨⟨h1, h2⟩, h3⟩, h4⟩
  · intro r habc
    have hbad : isValidExpense (.obj r) = false := by
      simp only [isValidExpense, habc]
      rfl
    constructor <;>
    · intro hmem
      have := (List.mem_filter.mp hmem).2
      rw [hbad] at this
      cases this

/-- C5 witness: the amended theorem applied to a concrete fetched array whose
second element carries the string amount "abc": that element is excluded from
both lists. -/
theorem c5_load_success_witness :
    Fetched.obj ⟨some (.str "abc"), some (.str "Food"), some (.str "2025-01-02"), none⟩ ∉
      (fetchExpenses (some
        [.obj ⟨some (.num 5), some (.str "Food"), some (.str "2025-01-01"), none⟩,
         .obj ⟨some (.str "abc"), some (.str "Food"), some (.str "2025-01-02"), none⟩])
        initialState).expenses ∧
    Fetched.obj ⟨some (.str "abc"), some (.str "Food"), some (.str "2025-01-02"), none⟩ ∉
      (fetchExpenses (some
        [.obj ⟨some (.num 5), some (.str "Food"), some (.str "2025-01-01"), none⟩,
         .obj ⟨some (.str "abc"), some (.str "Food"), some (.str "2025-01-02"), none⟩])
        initialState).filteredExpenses :=
  (c5_load_success
    [.obj ⟨some (.num 5), some (.str "Food"), some (.str "2025-01-01"), none⟩,
     .obj ⟨some (.str "abc"), some (.str "Food"), some (.str "2025-01-02"), none⟩]
    initialState).2.2.2.2
    ⟨some (.str "abc"), some (.str "Food"), some (.str "2025-01-02"), none⟩ rfl

end ExpenseTracker
